import Mathlib

/-!
Verification of the trigger client (`trigger.py`): a command-line client that
queries the `/status` endpoint of an automation server as a readiness gate and, when
ready, POSTs a project-creation request to `/create-project`, printing a report
and exiting with status 0 or 1.

The embedding models the network as an explicit outcome passed to each call:
an HTTP call either fails at transport level (`urlError`, covering connection
refused / timeout / DNS / HTTP error status, all caught by the
`urllib.error.URLError` handler), raises some other exception (`exn`, covering
an unparsable or malformed response body), or succeeds with a parsed JSON
object.  JSON objects are association lists of string keys to scalar JSON
values; `dict.get` is `List.lookup`.  Printing is modelled by returning the
list of printed lines alongside the result of each function.
-/

/-- A scalar JSON value as the client consumes it (the server bodies contain
only strings, numbers and booleans at top level). -/
inductive JsonVal where
  | str (s : String)
  | num (n : Int)
  | bool (b : Bool)
  | null
deriving DecidableEq, Repr

/-- A parsed JSON object body: ordered key/value pairs. -/
abbrev JsonObj := List (String × JsonVal)

/-- Outcome of one HTTP call as seen by the exception handlers of the client. -/
inductive HttpResult where
  /-- `urllib.error.URLError`: connection refused, timeout, DNS failure,
  or an HTTP error status (HTTPError is a subclass of URLError). -/
  | urlError
  /-- Any other exception, e.g. `json.loads` failing on a malformed body. -/
  | exn (msg : String)
  /-- Transport succeeded and the body parsed to a JSON object. -/
  | ok (body : JsonObj)
deriving DecidableEq, Repr

/-- How Python renders a JSON scalar inside an f-string. -/
def pyShow : JsonVal → String
  | .str s => s
  | .num n => toString n
  | .bool true => "True"
  | .bool false => "False"
  | .null => "None"

/-- How Python renders `dict.get(k)` (which may be `None`) inside an f-string. -/
def pyShowOpt : Option JsonVal → String
  | none => "None"
  | some v => pyShow v

/-- Python truthiness of `dict.get(k)` (used by `if result.get("success"):`). -/
def pyTruthyVal : Option JsonVal → Bool
  | none => false
  | some (.str s) => !(s == "")
  | some (.num n) => !(n == 0)
  | some (.bool b) => b
  | some .null => false

/-- Python evaluation of `v > 0` on a JSON scalar: defined on numbers and
booleans (`bool` is an `int` subclass in Python), a `TypeError` (`none`)
otherwise. -/
def pyGtZero : JsonVal → Option Bool
  | .num n => some (decide (0 < n))
  | .bool b => some b
  | _ => none

def SERVER_URL : String := "http://localhost:3000"

/-- Escaping of `"` and `\` as `json.dumps` performs on string content. -/
def jsonEscapeChar (c : Char) : String :=
  if c = '\\' then "\\\\" else if c = '"' then "\\\"" else String.singleton c

def jsonEscape (s : String) : String :=
  String.join (s.data.map jsonEscapeChar)

/-- `json.dumps` of a string-to-string dict with default separators. -/
def jsonDumpsObj (kvs : List (String × String)) : String :=
  "\x7b" ++
    String.intercalate ", "
      (kvs.map (fun kv => "\"" ++ jsonEscape kv.1 ++ "\": \"" ++ jsonEscape kv.2 ++ "\"")) ++
  "\x7d"

/-- One optional payload field: included only when the argument is a truthy
Python value, i.e. present and not the empty string
(`if project_name: payload["projectName"] = project_name`). -/
def optField (key : String) (v : Option String) : List (String × String) :=
  match v with
  | some s => if s = "" then [] else [(key, s)]
  | none => []

/-- The `payload` dict assembled by `create_project` (insertion order:
projectName, sequenceName, presetName). -/
def buildPayload (project_name sequence_name preset_name : Option String) :
    List (String × String) :=
  optField "projectName" project_name ++ optField "sequenceName" sequence_name ++
    optField "presetName" preset_name

/-- An HTTP request as the client issues it via `urllib.request`. -/
structure HttpRequest where
  url : String
  method : String
  headers : List (String × String)
  body : String
  timeout : Nat
deriving DecidableEq, Repr

/-- The POST request built by `create_project`: JSON body (the two literal
bytes `\x7b\x7d` when the payload dict is empty), a Content-Type header, and
`urlopen(req, timeout=60)`. -/
def createRequest (project_name sequence_name preset_name : Option String) :
    HttpRequest :=
  let payload := buildPayload project_name sequence_name preset_name
  { url := SERVER_URL ++ "/create-project"
    method := "POST"
    headers := [("Content-Type", "application/json")]
    body := if payload.isEmpty then "\x7b\x7d" else jsonDumpsObj payload
    timeout := 60 }

/-- The GET request built by `check_status`: `Request(f"{SERVER_URL}/status")`
issued with `urlopen(req, timeout=5)`. -/
def statusRequest : HttpRequest :=
  { url := SERVER_URL ++ "/status"
    method := "GET"
    headers := []
    body := ""
    timeout := 5 }

/-- The `connectedClients` value as `check_status` reads it:
`result.get("connectedClients", 0)`. -/
def ccOf (body : JsonObj) : JsonVal :=
  (List.lookup "connectedClients" body).getD (.num 0)

/-- `check_status()`: prints a status summary and returns
`result.get("connectedClients", 0) > 0`; every exception (transport failure,
parse failure, or a `TypeError` from the comparison) is caught by the bare
`except:` which prints "Cannot connect to server" and returns `False`.
Returns (ready, printed lines). -/
def check_status (resp : HttpResult) : Bool × List String :=
  match resp with
  | .ok body =>
      let cc := ccOf body
      let lines := ["Server status:",
        "  Connected plugins: " ++ pyShow cc,
        "  Save path: " ++ pyShow ((List.lookup "defaultSavePath" body).getD (.str "N/A")),
        "  Default preset: " ++ pyShow ((List.lookup "defaultPreset" body).getD (.str "N/A")),
        "  Default sequence: " ++ pyShow ((List.lookup "defaultSequence" body).getD (.str "N/A"))]
      match pyGtZero cc with
      | some b => (b, lines)
      | none => (false, lines ++ ["Cannot connect to server"])
  | _ => (false, ["Cannot connect to server"])

/-- `create_project(project_name, sequence_name, preset_name)`: builds the
payload, POSTs it, and classifies the outcome.  On a parsed response it
branches on the truthiness of `result.get("success")`; on
`urllib.error.URLError` it prints a connection-failure report; on any other
exception it prints `Error: {e}`.  Returns (succeeded, printed lines). -/
def create_project (project_name sequence_name preset_name : Option String)
    (resp : HttpResult) : Bool × List String :=
  let payload := buildPayload project_name sequence_name preset_name
  let pre := ["Creating project with sequence...",
      "  Server: " ++ SERVER_URL ++ "/create-project"] ++
    (if payload.isEmpty then [] else ["  Custom: " ++ jsonDumpsObj payload])
  match resp with
  | .ok result =>
      if pyTruthyVal (List.lookup "success" result) then
        (true, pre ++ ["\nSUCCESS!",
          "  Project: " ++ pyShowOpt (List.lookup "projectName" result),
          "  Sequence: " ++ pyShowOpt (List.lookup "sequenceName" result),
          "  Preset: " ++ pyShowOpt (List.lookup "presetUsed" result),
          "  Path: " ++ pyShowOpt (List.lookup "projectPath" result)])
      else
        (false, pre ++
          ["\nFAILED: " ++ pyShow ((List.lookup "error" result).getD (.str "Unknown error"))])
  | .urlError =>
      (false, pre ++ ["\nConnection failed: Server not running?",
        "  1. cd server", "  2. npm start", "  3. Load plugin in Premiere Pro"])
  | .exn msg => (false, pre ++ ["\nError: " ++ msg])

/-- Argument parsing in `__main__`: `sys.argv[i] if len(sys.argv) > i else None`
for i = 1, 2, 3. -/
def parseArgs (argv : List String) : Option String × Option String × Option String :=
  (argv.get? 1, argv.get? 2, argv.get? 3)

/-- Result of one whole invocation of the script. -/
structure RunResult where
  exitCode : Nat
  output : List String
  /-- Whether the creation POST was issued (i.e. `create_project` was reached;
  once called it always issues the POST). -/
  createAttempted : Bool
deriving DecidableEq, Repr

/-- The `__main__` block: parse argv, print the banner, run the status gate;
on a not-ready gate exit 1 without calling `create_project`, otherwise call it
and exit 0 on success, 1 on failure.  `statusResp` and `createResp` are the
responses of the network to the two calls (the second is consumed only if the gate
passes). -/
def main_entry (argv : List String) (statusResp createResp : HttpResult) :
    RunResult :=
  let args := parseArgs argv
  let banner := [String.mk (List.replicate 50 '='),
    "Premiere Pro Remote Project Creator v2.0",
    String.mk (List.replicate 50 '='), ""]
  let s := check_status statusResp
  if s.1 then
    let c := create_project args.1 args.2.1 args.2.2 createResp
    { exitCode := if c.1 then 0 else 1
      output := banner ++ s.2 ++ [""] ++ c.2 ++ [""]
      createAttempted := true }
  else
    { exitCode := 1
      output := banner ++ s.2 ++ [""]
      createAttempted := false }

/-! ## Theorems -/

/-- The status gate failing as described by the spec: the status call fails at
transport or parse level, or the response reports `connectedClients == 0`
(an absent field defaults to 0 and is covered by `ccOf`). -/
def statusGateFails (resp : HttpResult) : Prop :=
  resp = .urlError ∨ (∃ m, resp = .exn m) ∨
    (∃ body, resp = .ok body ∧ ccOf body = JsonVal.num 0)

theorem check_status_false_of_gateFails (resp : HttpResult)
    (h : statusGateFails resp) : (check_status resp).1 = false := by
  rcases h with h | ⟨m, h⟩ | ⟨body, h, hcc⟩
  · subst h; rfl
  · subst h; rfl
  · subst h; simp [check_status, hcc, pyGtZero]

/-- C1: whenever the status gate does not report ready (transport or parse
failure of the status call, or the response reports zero connected clients),
the client never issues the creation POST and the process exits with status
1. -/
theorem C1_gate_blocks_creation (argv : List String) (sResp cResp : HttpResult)
    (h : statusGateFails sResp) :
    (main_entry argv sResp cResp).createAttempted = false ∧
    (main_entry argv sResp cResp).exitCode = 1 := by
  have hready := check_status_false_of_gateFails sResp h
  constructor <;> simp [main_entry, hready]

theorem C1_gate_blocks_creation_witness :
    (main_entry ["trigger"] .urlError .urlError).createAttempted = false ∧
    (main_entry ["trigger"] .urlError .urlError).exitCode = 1 :=
  C1_gate_blocks_creation ["trigger"] .urlError .urlError (Or.inl rfl)

/-- C2: for a status response whose `connectedClients` field (defaulted to 0
when absent) is numeric, `check_status` returns ready = true iff the HTTP call
succeeded with a parsed body whose `connectedClients` value is a number
greater than 0; moreover a body in which `connectedClients` is absent is
treated as 0 and is therefore not ready. -/
theorem C2_check_status_ready_iff (resp : HttpResult) (body : JsonObj)
    (hwf : ∀ b, resp = .ok b → ∃ n : Int, ccOf b = JsonVal.num n)
    (habsent : List.lookup "connectedClients" body = none) :
    ((check_status resp).1 = true ↔
      ∃ b n, resp = .ok b ∧ ccOf b = JsonVal.num n ∧ 0 < n) ∧
    (check_status (.ok body)).1 = false := by
  constructor
  · cases resp with
    | urlError => simp [check_status]
    | exn m => simp [check_status]
    | ok b =>
        obtain ⟨n, hn⟩ := hwf b rfl
        simp only [check_status, hn, pyGtZero]
        constructor
        · intro h
          exact ⟨b, n, rfl, hn, by simpa using h⟩
        · rintro ⟨b2, n2, hb, h2, h3⟩
          injection hb with hb
          subst hb
          rw [hn] at h2
          injection h2 with h2
          subst h2
          simpa using h3
  · simp [check_status, ccOf, habsent, pyGtZero]

theorem C2_check_status_ready_iff_witness :
    (((check_status (.ok [("connectedClients", JsonVal.num 2)])).1 = true ↔
      ∃ b n, HttpResult.ok [("connectedClients", JsonVal.num 2)] = .ok b ∧
        ccOf b = JsonVal.num n ∧ 0 < n) ∧
     (check_status (.ok [])).1 = false) :=
  C2_check_status_ready_iff (.ok [("connectedClients", JsonVal.num 2)]) []
    (by intro b hb; injection hb with hb; subst hb; exact ⟨2, rfl⟩) rfl

/-- C3: the serialized creation payload contains exactly the keys whose fields
were provided (as nonempty strings) and no extraneous keys; the
Foo/Bar request serializes to exactly the two-key object, the all-absent
request to the empty object; the POST carries a
Content-Type: application/json header. -/
theorem C3_payload_exact_keys (pn sn pr : Option String) (k v : String)
    (hpn : pn ≠ some "") (hsn : sn ≠ some "") (hpr : pr ≠ some "") :
    ((k, v) ∈ buildPayload pn sn pr ↔
      (k = "projectName" ∧ pn = some v) ∨ (k = "sequenceName" ∧ sn = some v) ∨
      (k = "presetName" ∧ pr = some v)) ∧
    buildPayload (some "Foo") (some "Bar") none =
      [("projectName", "Foo"), ("sequenceName", "Bar")] ∧
    buildPayload none none none = [] ∧
    (createRequest none none none).body = "\x7b\x7d" ∧
    (createRequest pn sn pr).headers = [("Content-Type", "application/json")] ∧
    (createRequest pn sn pr).method = "POST" := by
  refine ⟨?_, by decide, by decide, by decide, rfl, rfl⟩
  rcases pn with _ | a <;> rcases sn with _ | b <;> rcases pr with _ | c <;>
    simp_all [buildPayload, optField, eq_comm]

theorem C3_payload_exact_keys_witness :
    ((("projectName", "Foo") ∈ buildPayload (some "Foo") (some "Bar") none ↔
      ("projectName" = "projectName" ∧ some "Foo" = some "Foo") ∨
      ("projectName" = "sequenceName" ∧ some "Bar" = some "Foo") ∨
      ("projectName" = "presetName" ∧ (none : Option String) = some "Foo")) ∧
    buildPayload (some "Foo") (some "Bar") none =
      [("projectName", "Foo"), ("sequenceName", "Bar")] ∧
    buildPayload none none none = [] ∧
    (createRequest none none none).body = "\x7b\x7d" ∧
    (createRequest (some "Foo") (some "Bar") none).headers =
      [("Content-Type", "application/json")] ∧
    (createRequest (some "Foo") (some "Bar") none).method = "POST") :=
  C3_payload_exact_keys (some "Foo") (some "Bar") none "projectName" "Foo"
    (by decide) (by decide) (by decide)

/-- C4: the process exit status is 0 iff the status gate reported ready and
the creation call succeeded, and it is 1 in every other case (the exit status
is always 0 or 1). -/
theorem C4_exit_code_iff (argv : List String) (sResp cResp : HttpResult) :
    ((main_entry argv sResp cResp).exitCode = 0 ↔
      ((check_status sResp).1 = true ∧
        (create_project (parseArgs argv).1 (parseArgs argv).2.1
          (parseArgs argv).2.2 cResp).1 = true)) ∧
    ((main_entry argv sResp cResp).exitCode = 0 ∨
      (main_entry argv sResp cResp).exitCode = 1) := by
  by_cases hs : (check_status sResp).1 = true
  · by_cases hc : (create_project (parseArgs argv).1 (parseArgs argv).2.1
        (parseArgs argv).2.2 cResp).1 = true
    · exact ⟨by simp [main_entry, hs, hc], Or.inl (by simp [main_entry, hs, hc])⟩
    · exact ⟨by simp [main_entry, hs, hc], Or.inr (by simp [main_entry, hs, hc])⟩
  · exact ⟨by simp [main_entry, hs], Or.inr (by simp [main_entry, hs])⟩

/-- C5: when the creation transport succeeds but the body carries
success:false, `create_project` returns failure, the error message of the
server appears verbatim in the printed report, and the process (whose gate
was ready) exits with status 1. -/
theorem C5_application_failure_surfaced (pn sn pr : Option String)
    (body : JsonObj) (m : String) (argv : List String) (sResp : HttpResult)
    (hsucc : List.lookup "success" body = some (.bool false))
    (herr : List.lookup "error" body = some (.str m))
    (hready : (check_status sResp).1 = true)
    (hargs : parseArgs argv = (pn, sn, pr)) :
    (create_project pn sn pr (.ok body)).1 = false ∧
    ("\nFAILED: " ++ m) ∈ (create_project pn sn pr (.ok body)).2 ∧
    (main_entry argv sResp (.ok body)).exitCode = 1 := by
  have h1 : (create_project pn sn pr (.ok body)).1 = false := by
    simp [create_project, hsucc, pyTruthyVal]
  refine ⟨h1, ?_, ?_⟩
  · simp [create_project, hsucc, herr, pyTruthyVal, pyShow]
  · simp [main_entry, hready, hargs, h1]

theorem C5_application_failure_surfaced_witness :
    (create_project none none none
      (.ok [("success", JsonVal.bool false),
            ("error", JsonVal.str "disk full")])).1 = false ∧
    ("\nFAILED: " ++ "disk full") ∈ (create_project none none none
      (.ok [("success", JsonVal.bool false),
            ("error", JsonVal.str "disk full")])).2 ∧
    (main_entry ["trigger"] (.ok [("connectedClients", JsonVal.num 1)])
      (.ok [("success", JsonVal.bool false),
            ("error", JsonVal.str "disk full")])).exitCode = 1 :=
  C5_application_failure_surfaced none none none
    [("success", JsonVal.bool false), ("error", JsonVal.str "disk full")]
    "disk full" ["trigger"] (.ok [("connectedClients", JsonVal.num 1)])
    rfl rfl (by decide) rfl

/-- C6: a transport-level failure of the creation call yields a failure
outcome whose connection-error message is printed and is distinct from every
application-level failure message of the form FAILED followed by a server
error string. -/
theorem C6_transport_failure_distinct_message (pn sn pr : Option String) :
    (create_project pn sn pr .urlError).1 = false ∧
    "\nConnection failed: Server not running?" ∈
      (create_project pn sn pr .urlError).2 ∧
    (∀ m : String, "\nConnection failed: Server not running?" ≠
      "\nFAILED: " ++ m) := by
  refine ⟨by simp [create_project], by simp [create_project], ?_⟩
  intro m h
  have hd := congrArg String.data h
  rw [String.data_append] at hd
  simp at hd

/-- C7: every transport or parse failure of the status call collapses to the
single undifferentiated report "Cannot connect to server" with a not-ready
result; in this embedding `check_status` and `create_project` are total
functions, so no exception escapes them. -/
theorem C7_status_failures_collapse (resp : HttpResult)
    (h : resp = .urlError ∨ ∃ m, resp = .exn m) :
    check_status resp = (false, ["Cannot connect to server"]) := by
  rcases h with h | ⟨m, h⟩ <;> subst h <;> rfl

theorem C7_status_failures_collapse_witness :
    check_status .urlError = (false, ["Cannot connect to server"]) :=
  C7_status_failures_collapse .urlError (Or.inl rfl)

/-- C8: a well-formed creation response with success:true makes
`create_project` return success; the printed report shows the project name,
sequence name, preset used and project path values returned by the server,
and the process (whose gate was ready) exits with status 0. -/
theorem C8_success_report_fields (pn sn pr : Option String) (body : JsonObj)
    (argv : List String) (sResp : HttpResult)
    (hsucc : List.lookup "success" body = some (.bool true))
    (hready : (check_status sResp).1 = true)
    (hargs : parseArgs argv = (pn, sn, pr)) :
    (create_project pn sn pr (.ok body)).1 = true ∧
    ("  Project: " ++ pyShowOpt (List.lookup "projectName" body)) ∈
      (create_project pn sn pr (.ok body)).2 ∧
    ("  Sequence: " ++ pyShowOpt (List.lookup "sequenceName" body)) ∈
      (create_project pn sn pr (.ok body)).2 ∧
    ("  Preset: " ++ pyShowOpt (List.lookup "presetUsed" body)) ∈
      (create_project pn sn pr (.ok body)).2 ∧
    ("  Path: " ++ pyShowOpt (List.lookup "projectPath" body)) ∈
      (create_project pn sn pr (.ok body)).2 ∧
    (main_entry argv sResp (.ok body)).exitCode = 0 := by
  have h1 : (create_project pn sn pr (.ok body)).1 = true := by
    simp [create_project, hsucc, pyTruthyVal]
  refine ⟨h1, ?_, ?_, ?_, ?_, ?_⟩ <;>
    first
    | (simp [create_project, hsucc, pyTruthyVal])
    | (simp [main_entry, hready, hargs, h1])

theorem C8_success_report_fields_witness :
    (create_project none none none
      (.ok [("success", JsonVal.bool true), ("projectName", JsonVal.str "Foo"),
            ("projectPath", JsonVal.str "/a/Foo.prproj")])).1 = true ∧
    ("  Project: " ++ pyShowOpt (List.lookup "projectName"
        [("success", JsonVal.bool true), ("projectName", JsonVal.str "Foo"),
         ("projectPath", JsonVal.str "/a/Foo.prproj")])) ∈
      (create_project none none none
        (.ok [("success", JsonVal.bool true), ("projectName", JsonVal.str "Foo"),
              ("projectPath", JsonVal.str "/a/Foo.prproj")])).2 ∧
    ("  Sequence: " ++ pyShowOpt (List.lookup "sequenceName"
        [("success", JsonVal.bool true), ("projectName", JsonVal.str "Foo"),
         ("projectPath", JsonVal.str "/a/Foo.prproj")])) ∈
      (create_project none none none
        (.ok [("success", JsonVal.bool true), ("projectName", JsonVal.str "Foo"),
              ("projectPath", JsonVal.str "/a/Foo.prproj")])).2 ∧
    ("  Preset: " ++ pyShowOpt (List.lookup "presetUsed"
        [("success", JsonVal.bool true), ("projectName", JsonVal.str "Foo"),
         ("projectPath", JsonVal.str "/a/Foo.prproj")])) ∈
      (create_project none none none
        (.ok [("success", JsonVal.bool true), ("projectName", JsonVal.str "Foo"),
              ("projectPath", JsonVal.str "/a/Foo.prproj")])).2 ∧
    ("  Path: " ++ pyShowOpt (List.lookup "projectPath"
        [("success", JsonVal.bool true), ("projectName", JsonVal.str "Foo"),
         ("projectPath", JsonVal.str "/a/Foo.prproj")])) ∈
      (create_project none none none
        (.ok [("success", JsonVal.bool true), ("projectName", JsonVal.str "Foo"),
              ("projectPath", JsonVal.str "/a/Foo.prproj")])).2 ∧
    (main_entry ["trigger"] (.ok [("connectedClients", JsonVal.num 1)])
      (.ok [("success", JsonVal.bool true), ("projectName", JsonVal.str "Foo"),
            ("projectPath", JsonVal.str "/a/Foo.prproj")])).exitCode = 0 :=
  C8_success_report_fields none none none
    [("success", JsonVal.bool true), ("projectName", JsonVal.str "Foo"),
     ("projectPath", JsonVal.str "/a/Foo.prproj")]
    ["trigger"] (.ok [("connectedClients", JsonVal.num 1)])
    rfl (by decide) rfl

/-- C9: the status query is issued with a per-call timeout of 5 (at most 5)
time units and the creation request with a per-call timeout of 60 (at most
60); a call that does not return within its timeout surfaces as a transport
failure, which both operations treat as failed. -/
theorem C9_per_call_timeouts :
    statusRequest.timeout = 5 ∧ statusRequest.timeout ≤ 5 ∧
    (∀ pn sn pr : Option String, (createRequest pn sn pr).timeout = 60 ∧
      (createRequest pn sn pr).timeout ≤ 60) ∧
    (check_status .urlError).1 = false ∧
    (∀ pn sn pr : Option String, (create_project pn sn pr .urlError).1 = false) :=
  ⟨rfl, by decide, fun _ _ _ => ⟨rfl, by simp [createRequest]⟩, rfl,
    fun pn sn pr => by simp [create_project]⟩

/-- C10: a request field whose value is the empty string is omitted from the
JSON payload exactly as an absent field is, so the all-empty-string invocation
is indistinguishable at the HTTP interface from the all-absent one and sends
the body of two bytes, the empty object. -/
theorem C10_empty_string_omitted (pn sn pr : Option String) :
    buildPayload (some "") sn pr = buildPayload none sn pr ∧
    buildPayload pn (some "") pr = buildPayload pn none pr ∧
    buildPayload pn sn (some "") = buildPayload pn sn none ∧
    parseArgs ["trigger", "", "", ""] = (some "", some "", some "") ∧
    createRequest (some "") (some "") (some "") = createRequest none none none ∧
    (createRequest (some "") (some "") (some "")).body = "\x7b\x7d" := by
  refine ⟨?_, ?_, ?_, by decide, by decide, by decide⟩ <;>
    simp [buildPayload, optField]
